import Mathlib

/-!
Verification of the core logic of a small text-to-speech narration app
(`app2.py`): the rate mapper `speed_to_edge_rate`, the voice catalog
`VOICES`, the two synthesis functions `synthesize_edge_tts` and
`synthesize_gtts`, and the generate handler (input validation, output
file naming, engine dispatch).

Speeds are modelled as exact rationals: every member of the fixed
speed set `[0.5, 0.75, 1.0, 1.25, 1.5]` is exactly representable as a
binary float, and all arithmetic the source performs on them
(`x - 1.0`, `* 100`, `abs`, comparison with `1e-6`) is exact, so the
rational model coincides with the float behaviour on the domain used by the source.
File contents are modelled as byte lists; the file system as a partial map
from path strings to contents.  External services (the Edge-TTS stream,
the gTTS synthesis, the pydub speedup/export step) are oracles passed as
function arguments.
-/

/-- Byte strings: contents of audio files. -/
abbrev Bytes := List Nat

/-- A chunk of the Edge-TTS stream: a kind tag (`"audio"`, `"WordBoundary"`,
...) and payload bytes, mirroring the dicts yielded by
`communicate.stream()`. -/
structure Chunk where
  kind : String
  data : Bytes
deriving DecidableEq, Repr

/-- Observable external calls made by the synthesis code, used to state
"backend is (not) invoked" properties. -/
inductive Ev where
  /-- A call to the secondary (gTTS) backend with the given text and language. -/
  | gttsCall (text lang : String)
  /-- A call to the primary (Edge-TTS) backend with text, resolved voice and rate string. -/
  | edgeCall (text voice rate : String)
  /-- An attempt to run the pydub tempo-stretch transform at the given speed. -/
  | stretchCall (speed : ℚ)
deriving DecidableEq, Repr

/-- The file system: a partial map from paths to byte contents. -/
abbrev FS := String → Option Bytes

/-- Model of `open(p, "wb")` followed by writing `a`: the path now holds `a`. -/
def fsWrite (fs : FS) (p : String) (a : Bytes) : FS :=
  fun q => if q = p then some a else fs q

/-- Model of `Path(src).rename(dst)`: `dst` now holds what `src` held; `src` is gone. -/
def fsRename (fs : FS) (src dst : String) : FS :=
  fun q => if q = dst then fs src else if q = src then none else fs q

/-- Model of `Path(p).unlink(missing_ok=True)`. -/
def fsUnlink (fs : FS) (p : String) : FS :=
  fun q => if q = p then none else fs q

/-- Whitespace characters stripped by the Python `str.strip()` method (ASCII part). -/
def isPySpace (c : Char) : Bool :=
  c = ' ' || c = '\t' || c = '\n' || c = '\r' || c = '\x0b' || c = '\x0c'

/-- Python `text.strip()`: remove leading and trailing whitespace. -/
def pyStrip (s : String) : String :=
  String.mk (((s.data.dropWhile isPySpace).reverse.dropWhile isPySpace).reverse)

/-- Python `s.lower()` (ASCII). -/
def pyLower (s : String) : String :=
  String.mk (s.data.map Char.toLower)

/-- Python `str(n)` for an integer: decimal digits, with a `-` sign iff
negative (no explicit `+`). -/
def pyStrInt (n : ℤ) : String :=
  if n < 0 then "-" ++ Nat.repr n.natAbs else Nat.repr n.natAbs

/-- Python `round` to the nearest integer, ties to even, on exact rationals. -/
def roundHalfEven (q : ℚ) : ℤ :=
  let n : ℤ := q.num.fdiv q.den
  let r : ℚ := q - (n : ℚ)
  if r < 1/2 then n
  else if 1/2 < r then n + 1
  else if n % 2 = 0 then n else n + 1

/-- Function `speed_to_edge_rate` from `app2.py`: convert a speed multiplier into the
Edge-TTS rate string.  `pct = int(round((x - 1.0) * 100))`; positive values
get an explicit `+`, negative carry their own sign, zero is fixed to
`"+0%"`. -/
def speed_to_edge_rate (x : ℚ) : String :=
  let pct : ℤ := roundHalfEven ((x - 1) * 100)
  if pct > 0 then "+" ++ pyStrInt pct ++ "%"
  else if pct < 0 then pyStrInt pct ++ "%"
  else "+0%"

/-- The `VOICES` dict from `app2.py`, as a partial map from
(language, gender) to the backend voice identifier. -/
def VOICES : String × String → Option String := fun k =>
  if k = ("en", "Female") then some "en-US-JennyNeural"
  else if k = ("en", "Male") then some "en-US-GuyNeural"
  else if k = ("ja", "Female") then some "ja-JP-NanamiNeural"
  else if k = ("ja", "Male") then some "ja-JP-KeitaNeural"
  else none

/-- Lookup `VOICES.get((lang, gender), VOICES[("en", "Female")])` from
`synthesize_edge_tts`: dictionary lookup with the English/Female entry as
default. -/
def resolveVoice (lang gender : String) : String :=
  (VOICES (lang, gender)).getD ((VOICES ("en", "Female")).getD "")

/-- List `SPEED_OPTIONS` from `app2.py`. -/
def SPEED_OPTIONS : List ℚ := [1/2, 3/4, 1, 5/4, 3/2]

/-- Helper for `Path.with_suffix`: scanning the reversed path, drop up to
and including the last dot of the final component (`none` when there is no
extension). -/
def dropExtRev : List Char → Option (List Char)
  | [] => none
  | c :: cs => if c = '.' then some cs else if c = '/' then none else dropExtRev cs

/-- The path without its last extension (the path itself when it has none). -/
def stripLastExt (p : String) : String :=
  match dropExtRev p.data.reverse with
  | some rest => String.mk rest.reverse
  | none => p

/-- Python `Path(p).with_suffix(suffix)`: replace the last extension. -/
def withSuffix (p suffix : String) : String :=
  stripLastExt p ++ suffix

/-- The bytes the Edge-TTS streaming loop writes: payload bytes of chunks
whose kind tag is "audio", in arrival order; every other chunk kind
contributes nothing. -/
def writeChunks : List Chunk → Bytes
  | [] => []
  | c :: cs => (if c.kind = "audio" then c.data else []) ++ writeChunks cs

/-- Python `str` on the five floats of `SPEED_OPTIONS` (each exactly
representable, so `str` prints the short decimal form); other inputs do
not occur in the app. -/
def pyStrFloat (x : ℚ) : String :=
  if x = 1/2 then "0.5"
  else if x = 3/4 then "0.75"
  else if x = 1 then "1.0"
  else if x = 5/4 then "1.25"
  else if x = 3/2 then "1.5"
  else "?"

/-- Constant `OUTPUT_DIR` from `app2.py`. -/
def OUTPUT_DIR : String := "outputs"

/-- Python `s.startswith(p)`. -/
def pyStartsWith (s p : String) : Bool :=
  s.data.take p.data.length == p.data

/-- Function `synthesize_edge_tts` from `app2.py`.  The Edge-TTS service is an
oracle `stream` mapping (text, voice, rate) to the chunks that arrive and
an optional error raised after them (an unreachable backend or rejected
voice errors before any chunk arrives).  The source opens `out_path` for
writing before consuming the stream and writes the payload of every
audio-tagged chunk as it arrives, so on failure the file holds exactly the
bytes received so far.  Returns the file system, the result, and the
external calls made. -/
def synthesize_edge_tts (stream : String → String → String → List Chunk × Option String)
    (text lang gender : String) (speed : ℚ) (out_path : String) (fs : FS) :
    FS × Except String String × List Ev :=
  let voice := resolveVoice lang gender
  let rate_str := speed_to_edge_rate speed
  let chunks := (stream text voice rate_str).1
  let fs1 := fsWrite fs out_path (writeChunks chunks)
  match (stream text voice rate_str).2 with
  | none => (fs1, .ok out_path, [Ev.edgeCall text voice rate_str])
  | some e => (fs1, .error e, [Ev.edgeCall text voice rate_str])

/-- Function `synthesize_gtts` from `app2.py`.  `gtts` is the secondary backend
oracle (text, lang ↦ normal-speed audio); `speedupExport` models the
pydub decode / `speedup` / re-encode step, which throws when ffmpeg is
missing.  The source first writes normal-speed audio to a `.tmp.mp3`
sibling path; at speed 1.0 it renames it to `out_path`; otherwise it
attempts the tempo stretch, writing the stretched audio to `out_path` and
unlinking the temporary on success, and on failure renaming the temporary
to `out_path` before raising a `RuntimeError`. -/
def synthesize_gtts (gtts : String → String → Bytes)
    (speedupExport : Bytes → ℚ → Except String Bytes)
    (text lang : String) (speed : ℚ) (out_path : String) (fs : FS) :
    FS × Except String String × List Ev :=
  let tmp_path := withSuffix out_path ".tmp.mp3"
  let fs1 := fsWrite fs tmp_path (gtts text lang)
  if |speed - 1| < 1/1000000 then
    (fsRename fs1 tmp_path out_path, .ok out_path, [Ev.gttsCall text lang])
  else
    match speedupExport (gtts text lang) speed with
    | .ok adjusted =>
        (fsUnlink (fsWrite fs1 out_path adjusted) tmp_path, .ok out_path,
         [Ev.gttsCall text lang, Ev.stretchCall speed])
    | .error e =>
        (fsRename fs1 tmp_path out_path,
         .error ("gTTSの速度変更に失敗しました（ffmpeg未導入の可能性）。通常速度の音声を出力しました。詳細: " ++ e),
         [Ev.gttsCall text lang, Ev.stretchCall speed])

/-- Result of one press of the generate button: rejected blank input, a
produced file, or a surfaced error. -/
inductive Outcome where
  | stopped
  | done (path : String)
  | failed (msg : String)
deriving DecidableEq, Repr

/-- How the handler renders a synthesis result: success banner or the
message of the caught exception. -/
def toOutcome : Except String String → Outcome
  | .ok p => .done p
  | .error e => .failed e

/-- The output filename built by the generate handler:
`tekross_voice_{lang}_{gender.lower()}_{str(speed).replace(".","_")}x_{timestamp}.mp3`. -/
def mk_filename (lang gender : String) (speed : ℚ) (timestamp : String) : String :=
  "tekross_voice_" ++ lang ++ "_" ++ pyLower gender ++ "_" ++
    (pyStrFloat speed).replace "." "_" ++ "x_" ++ timestamp ++ ".mp3"

/-- The generate-button handler (`app2.py` lines 112-130): reject blank
text before anything else, build the timestamped output path, dispatch to
the engine chosen by the radio label, and render the result.  `timestamp`
stands for `datetime.now().strftime("%Y%m%d_%H%M%S")` (15 characters).
The `asyncio.run` / fresh-event-loop retry on the Edge-TTS path re-drives
the same coroutine only when the ambient loop rejects `asyncio.run`; with
a deterministic stream oracle it is one call here. -/
def generate_handler (stream : String → String → String → List Chunk × Option String)
    (gtts : String → String → Bytes)
    (speedupExport : Bytes → ℚ → Except String Bytes)
    (text lang gender engine : String) (speed : ℚ) (timestamp : String)
    (fs : FS) : FS × Outcome × List Ev :=
  if pyStrip text = "" then (fs, Outcome.stopped, [])
  else
    let filename := mk_filename lang gender speed timestamp
    let out_path := OUTPUT_DIR ++ "/" ++ filename
    if pyStartsWith engine "Edge-TTS" then
      let r := synthesize_edge_tts stream text lang gender speed out_path fs
      (r.1, toOutcome r.2.1, r.2.2)
    else
      let r := synthesize_gtts gtts speedupExport text lang speed out_path fs
      (r.1, toOutcome r.2.1, r.2.2)

/-- Appending strings appends their character lists. -/
theorem str_data_append (s t : String) : (s ++ t).data = s.data ++ t.data := rfl

/-- Strings with equal character lists are equal. -/
theorem str_data_inj {s t : String} (h : s.data = t.data) : s = t := by
  cases s; cases t; cases h; rfl

/-- Floor division by one is the identity. -/
theorem int_fdiv_one (n : ℤ) : n.fdiv 1 = n := by
  rw [Int.fdiv_eq_ediv n (by omega)]
  exact Int.ediv_one n

/-- On a rational that is an integer, rounding half-to-even is the identity. -/
theorem roundHalfEven_intCast (n : ℤ) : roundHalfEven (n : ℚ) = n := by
  simp only [roundHalfEven, Rat.num_intCast, Rat.den_intCast, Nat.cast_one,
    int_fdiv_one, sub_self]
  norm_num

/-- Unfolding lemma exposing the branch structure of the rate mapper. -/
theorem speed_to_edge_rate_eq (x : ℚ) :
    speed_to_edge_rate x =
      if roundHalfEven ((x - 1) * 100) > 0 then
        "+" ++ pyStrInt (roundHalfEven ((x - 1) * 100)) ++ "%"
      else if roundHalfEven ((x - 1) * 100) < 0 then
        pyStrInt (roundHalfEven ((x - 1) * 100)) ++ "%"
      else "+0%" := rfl

/-- A negative integer renders with a leading minus sign. -/
theorem pyStrInt_neg_data (n : ℤ) (hn : n < 0) :
    (pyStrInt n).data = '-' :: (Nat.repr n.natAbs).data := by
  simp only [pyStrInt, if_pos hn]
  rfl

/-- The negative-branch output of the rate mapper is never "0%". -/
theorem neg_fmt_ne_zero_pct (n : ℤ) (hn : n < 0) : pyStrInt n ++ "%" ≠ "0%" := by
  intro h
  have hd := congrArg String.data h
  rw [str_data_append, pyStrInt_neg_data n hn] at hd
  simp only [List.cons_append] at hd
  injection hd with h1 _
  exact absurd h1 (by decide)

/-- A string starting with a plus sign is never "0%". -/
theorem plus_fmt_ne_zero_pct (s : String) : "+" ++ s ≠ "0%" := by
  intro h
  have hd := congrArg String.data h
  rw [str_data_append] at hd
  simp only [List.singleton_append] at hd
  injection hd with h1 _
  exact absurd h1 (by decide)

/-- C1: for every speed in the fixed set {0.5, 0.75, 1.0, 1.25, 1.5},
`speed_to_edge_rate` returns, respectively, "-50%", "-25%", "+0%", "+25%"
and "+50%": the rounded percentage deviation formatted with an explicit
sign on positive values. -/
theorem C1_rate_mapper_fixed_set :
    speed_to_edge_rate (1/2) = "-50%" ∧
    speed_to_edge_rate (3/4) = "-25%" ∧
    speed_to_edge_rate 1 = "+0%" ∧
    speed_to_edge_rate (5/4) = "+25%" ∧
    speed_to_edge_rate (3/2) = "+50%" := by
  have e1 : ((1/2 : ℚ) - 1) * 100 = ((-50 : ℤ) : ℚ) := by norm_num
  have e2 : ((3/4 : ℚ) - 1) * 100 = ((-25 : ℤ) : ℚ) := by norm_num
  have e3 : ((1 : ℚ) - 1) * 100 = ((0 : ℤ) : ℚ) := by norm_num
  have e4 : ((5/4 : ℚ) - 1) * 100 = ((25 : ℤ) : ℚ) := by norm_num
  have e5 : ((3/2 : ℚ) - 1) * 100 = ((50 : ℤ) : ℚ) := by norm_num
  refine ⟨?_, ?_, ?_, ?_, ?_⟩ <;>
    rw [speed_to_edge_rate_eq] <;>
    [rw [e1]; rw [e2]; rw [e3]; rw [e4]; rw [e5]] <;>
    rw [roundHalfEven_intCast] <;> decide

/-- C7: the rate mapper is a total function and never returns the unsigned
string "0%"; whenever the rounded percentage is 0 — in particular at input
1.0 — it returns the literal "+0%". -/
theorem C7_rate_mapper_never_unsigned_zero (x : ℚ) :
    speed_to_edge_rate x ≠ "0%" ∧
    (roundHalfEven ((x - 1) * 100) = 0 → speed_to_edge_rate x = "+0%") ∧
    (x = 1 → speed_to_edge_rate x = "+0%") := by
  have h1 : x = 1 → roundHalfEven ((x - 1) * 100) = 0 := by
    intro hx
    subst hx
    have e : ((1 : ℚ) - 1) * 100 = ((0 : ℤ) : ℚ) := by norm_num
    rw [e, roundHalfEven_intCast]
  rw [speed_to_edge_rate_eq]
  rcases lt_trichotomy (roundHalfEven ((x - 1) * 100)) 0 with hlt | heq | hgt
  · rw [if_neg (by omega), if_pos hlt]
    exact ⟨neg_fmt_ne_zero_pct _ hlt, fun h => absurd h (by omega),
      fun hx => absurd (h1 hx) (by omega)⟩
  · rw [if_neg (by omega), if_neg (by omega)]
    exact ⟨by decide, fun _ => rfl, fun _ => rfl⟩
  · rw [if_pos hgt]
    exact ⟨fun h => plus_fmt_ne_zero_pct _ h, fun h => absurd h (by omega),
      fun hx => absurd (h1 hx) (by omega)⟩

/-- C7 witness: at the concrete input 1.0 the mapper avoids "0%" and
returns the literal "+0%". -/
theorem C7_witness :
    speed_to_edge_rate 1 ≠ "0%" ∧ speed_to_edge_rate 1 = "+0%" := by
  have h := C7_rate_mapper_never_unsigned_zero 1
  exact ⟨h.1, h.2.2 rfl⟩

/-- Rebuilding a string from its character list is the identity. -/
theorem str_mk_data (s : String) : String.mk s.data = s := by
  cases s; rfl

/-- Stripping the last extension of a path ending in ".mp3" removes it. -/
theorem stripLastExt_append_mp3 (s : String) : stripLastExt (s ++ ".mp3") = s := by
  have h : (s ++ ".mp3").data.reverse = '3' :: 'p' :: 'm' :: '.' :: s.data.reverse := by
    rw [str_data_append, List.reverse_append]; rfl
  have hdrop : dropExtRev ('3' :: 'p' :: 'm' :: '.' :: s.data.reverse)
      = some s.data.reverse := by
    simp [dropExtRev]
  unfold stripLastExt
  rw [h, hdrop]
  show String.mk s.data.reverse.reverse = s
  rw [List.reverse_reverse, str_mk_data]

/-- The temporary path used by `synthesize_gtts` differs from the final
".mp3" output path. -/
theorem tmp_ne_out (s : String) : withSuffix (s ++ ".mp3") ".tmp.mp3" ≠ s ++ ".mp3" := by
  rw [withSuffix, stripLastExt_append_mp3]
  intro h
  have hd := congrArg String.data h
  rw [str_data_append, str_data_append] at hd
  exact absurd (List.append_cancel_left hd) (by decide)

/-- C5: voice resolution is total: a registered (language, gender) pair
resolves to its catalog entry — in particular ("en", "Male") to the
English/Male voice — and every unregistered pair falls back to the
English/Female entry; no input fails. -/
theorem C5_voice_resolution (lang gender v : String) :
    (VOICES (lang, gender) = some v → resolveVoice lang gender = v) ∧
    (VOICES (lang, gender) = none → resolveVoice lang gender = "en-US-JennyNeural") ∧
    resolveVoice "en" "Male" = "en-US-GuyNeural" := by
  refine ⟨fun h => ?_, fun h => ?_, by rfl⟩
  · rw [resolveVoice, h]; rfl
  · rw [resolveVoice, h]; rfl

/-- C5 witness: the registered pair ("ja", "Male") resolves to its entry
and the unregistered pair ("fr", "Female") falls back to the
English/Female voice. -/
theorem C5_witness :
    resolveVoice "ja" "Male" = "ja-JP-KeitaNeural" ∧
    resolveVoice "fr" "Female" = "en-US-JennyNeural" :=
  ⟨(C5_voice_resolution "ja" "Male" "ja-JP-KeitaNeural").1 rfl,
   (C5_voice_resolution "fr" "Female" "").2.1 rfl⟩

/-- C6: on the secondary engine at speed exactly 1.0 the tempo-stretch
transform is never attempted: the only external call is the gTTS request,
the normal-speed temporary file is renamed onto the output path (which
then holds the normal-speed audio), and the function returns the output
path. -/
theorem C6_secondary_speed_one_skips_stretch (gtts : String → String → Bytes)
    (speedupExport : Bytes → ℚ → Except String Bytes)
    (text lang s : String) (fs : FS) :
    (synthesize_gtts gtts speedupExport text lang 1 (s ++ ".mp3") fs).2.2
      = [Ev.gttsCall text lang] ∧
    (synthesize_gtts gtts speedupExport text lang 1 (s ++ ".mp3") fs).2.1
      = .ok (s ++ ".mp3") ∧
    (synthesize_gtts gtts speedupExport text lang 1 (s ++ ".mp3") fs).1 (s ++ ".mp3")
      = some (gtts text lang) ∧
    (synthesize_gtts gtts speedupExport text lang 1 (s ++ ".mp3") fs).1
        (withSuffix (s ++ ".mp3") ".tmp.mp3")
      = none := by
  have hc : |(1 : ℚ) - 1| < 1/1000000 := by norm_num
  refine ⟨by simp [synthesize_gtts, if_pos hc], by simp [synthesize_gtts, if_pos hc], ?_, ?_⟩
  · simp [synthesize_gtts, if_pos hc, fsRename, fsWrite]
  · simp [synthesize_gtts, if_pos hc, fsRename, fsWrite, tmp_ne_out s]

/-- A fixed-set speed other than 1.0 fails the speed-1.0 shortcut test. -/
theorem speed_options_ne_one (speed : ℚ) (hs : speed ∈ SPEED_OPTIONS)
    (hne : speed ≠ 1) : ¬ |speed - 1| < 1/1000000 := by
  simp only [SPEED_OPTIONS, List.mem_cons, List.not_mem_nil, or_false] at hs
  rcases hs with h | h | h | h | h
  all_goals first
    | exact absurd h hne
    | (subst h; intro hcon; rw [abs_lt] at hcon; norm_num at hcon)

/-- C2: on the secondary engine at a fixed-set speed other than 1.0, when
the tempo-stretch step fails the normal-speed temporary file is renamed to
the output path — which afterwards holds the normal-speed audio while the
temporary is gone — and a recoverable error is raised. -/
theorem C2_secondary_stretch_failure_degrades (gtts : String → String → Bytes)
    (speedupExport : Bytes → ℚ → Except String Bytes)
    (text lang s e : String) (speed : ℚ) (fs : FS)
    (hs : speed ∈ SPEED_OPTIONS) (hne : speed ≠ 1)
    (hfail : speedupExport (gtts text lang) speed = .error e) :
    (synthesize_gtts gtts speedupExport text lang speed (s ++ ".mp3") fs).1 (s ++ ".mp3")
      = some (gtts text lang) ∧
    (synthesize_gtts gtts speedupExport text lang speed (s ++ ".mp3") fs).1
        (withSuffix (s ++ ".mp3") ".tmp.mp3") = none ∧
    ∃ msg, (synthesize_gtts gtts speedupExport text lang speed (s ++ ".mp3") fs).2.1
      = .error msg := by
  have hc := speed_options_ne_one speed hs hne
  have key : synthesize_gtts gtts speedupExport text lang speed (s ++ ".mp3") fs
      = (fsRename (fsWrite fs (withSuffix (s ++ ".mp3") ".tmp.mp3") (gtts text lang))
           (withSuffix (s ++ ".mp3") ".tmp.mp3") (s ++ ".mp3"),
         .error ("gTTSの速度変更に失敗しました（ffmpeg未導入の可能性）。通常速度の音声を出力しました。詳細: " ++ e),
         [Ev.gttsCall text lang, Ev.stretchCall speed]) := by
    simp only [synthesize_gtts]
    rw [if_neg hc, hfail]
  refine ⟨?_, ?_, ⟨_, by rw [key]⟩⟩
  · rw [key]; simp [fsRename, fsWrite]
  · rw [key]; simp [fsRename, fsWrite, tmp_ne_out s]

/-- C2 witness: a concrete failing tempo stretch at speed 1.5 leaves the
normal-speed audio at the output path and raises an error. -/
theorem C2_witness :
    (synthesize_gtts (fun _ _ => [1, 2, 3]) (fun _ _ => .error "no ffmpeg")
        "hi" "en" (3/2) ("outputs/x" ++ ".mp3") (fun _ => none)).1 ("outputs/x" ++ ".mp3")
      = some [1, 2, 3] ∧
    (synthesize_gtts (fun _ _ => [1, 2, 3]) (fun _ _ => .error "no ffmpeg")
        "hi" "en" (3/2) ("outputs/x" ++ ".mp3") (fun _ => none)).1
        (withSuffix ("outputs/x" ++ ".mp3") ".tmp.mp3") = none ∧
    ∃ msg, (synthesize_gtts (fun _ _ => [1, 2, 3]) (fun _ _ => .error "no ffmpeg")
        "hi" "en" (3/2) ("outputs/x" ++ ".mp3") (fun _ => none)).2.1 = .error msg :=
  C2_secondary_stretch_failure_degrades (fun _ _ => [1, 2, 3])
    (fun _ _ => .error "no ffmpeg") "hi" "en" "outputs/x" "no ffmpeg" (3/2)
    (fun _ => none) (by norm_num [SPEED_OPTIONS]) (by norm_num) rfl

/-- C3 counterexample: with the primary backend unreachable (the stream
fails before yielding any chunk) the error propagates, but a file IS
produced at the output path — the source opens the file for writing before
consuming the stream — refuting "no file is produced at the output path"
at this concrete input. -/
theorem C3_counterexample :
    (synthesize_edge_tts (fun _ _ _ => ([], some "backend unreachable"))
        "hello" "en" "Female" 1 "outputs/o.mp3" (fun _ => none)).2.1
      = .error "backend unreachable" ∧
    (synthesize_edge_tts (fun _ _ _ => ([], some "backend unreachable"))
        "hello" "en" "Female" 1 "outputs/o.mp3" (fun _ => none)).1 "outputs/o.mp3"
      = some [] := by
  constructor
  · rfl
  · simp [synthesize_edge_tts, fsWrite, writeChunks]

/-- C3 amended: when the primary backend fails (unreachable, or the voice
rejected mid-stream), `synthesize_edge_tts` propagates the error as a hard
failure, and the output path holds exactly the audio bytes received before
the failure — an empty file when it failed before any chunk — rather than
no file. -/
theorem C3_amended_edge_failure
    (stream : String → String → String → List Chunk × Option String)
    (text lang gender out_path : String) (speed : ℚ) (fs : FS)
    (chunks : List Chunk) (e : String)
    (hs : stream text (resolveVoice lang gender) (speed_to_edge_rate speed)
            = (chunks, some e)) :
    (synthesize_edge_tts stream text lang gender speed out_path fs).2.1 = .error e ∧
    (synthesize_edge_tts stream text lang gender speed out_path fs).1 out_path
      = some (writeChunks chunks) := by
  constructor <;> simp [synthesize_edge_tts, hs, fsWrite]

/-- C3 amended witness: a stream that delivers one audio and one metadata
chunk and then fails leaves exactly the audio payload on disk and surfaces
the error. -/
theorem C3_amended_witness :
    (synthesize_edge_tts
        (fun _ _ _ => ([⟨"audio", [7]⟩, ⟨"WordBoundary", [9]⟩], some "connection reset"))
        "hi" "en" "Male" 1 "outputs/p.mp3" (fun _ => none)).2.1
      = .error "connection reset" ∧
    (synthesize_edge_tts
        (fun _ _ _ => ([⟨"audio", [7]⟩, ⟨"WordBoundary", [9]⟩], some "connection reset"))
        "hi" "en" "Male" 1 "outputs/p.mp3" (fun _ => none)).1 "outputs/p.mp3"
      = some [7] := by
  have h := C3_amended_edge_failure
    (fun _ _ _ => ([⟨"audio", [7]⟩, ⟨"WordBoundary", [9]⟩], some "connection reset"))
    "hi" "en" "Male" "outputs/p.mp3" 1 (fun _ => none)
    [⟨"audio", [7]⟩, ⟨"WordBoundary", [9]⟩] "connection reset" rfl
  simpa [writeChunks] using h

/-- The streaming write loop produces the concatenated payloads of the
audio-tagged chunks. -/
theorem writeChunks_eq_flatten (cs : List Chunk) :
    writeChunks cs = ((cs.filter fun c => c.kind == "audio").map Chunk.data).flatten := by
  induction cs with
  | nil => rfl
  | cons c cs ih =>
      by_cases h : c.kind = "audio" <;>
        simp [writeChunks, List.filter_cons, h, ih]

/-- C8: on the primary path, for every chunk sequence delivered by the
stream, the file at the output path contains exactly the payload bytes of
the audio-tagged chunks concatenated in arrival order; chunks of every
other kind contribute no bytes. -/
theorem C8_edge_writes_audio_chunks_only
    (text lang gender out_path : String) (speed : ℚ) (fs : FS) (chunks : List Chunk) :
    (synthesize_edge_tts (fun _ _ _ => (chunks, none))
        text lang gender speed out_path fs).1 out_path
      = some (((chunks.filter fun c => c.kind == "audio").map Chunk.data).flatten) ∧
    (synthesize_edge_tts (fun _ _ _ => (chunks, none))
        text lang gender speed out_path fs).2.1 = .ok out_path := by
  constructor
  · simp [synthesize_edge_tts, fsWrite, writeChunks_eq_flatten]
  · rfl

/-- Text whose characters are all whitespace strips to the empty string. -/
theorem pyStrip_eq_empty (text : String) (h : ∀ c ∈ text.data, isPySpace c = true) :
    pyStrip text = "" := by
  have h1 : text.data.dropWhile isPySpace = [] := List.dropWhile_eq_nil_iff.mpr h
  unfold pyStrip
  rw [h1]
  rfl

/-- C4: blank input (empty or whitespace-only text) is rejected before
anything happens: the handler stops, makes no backend call (no external
event) and leaves the file system unchanged (no file created). -/
theorem C4_blank_text_rejected
    (stream : String → String → String → List Chunk × Option String)
    (gtts : String → String → Bytes)
    (speedupExport : Bytes → ℚ → Except String Bytes)
    (text lang gender engine : String) (speed : ℚ) (timestamp : String) (fs : FS)
    (hblank : ∀ c ∈ text.data, isPySpace c = true) :
    generate_handler stream gtts speedupExport text lang gender engine speed timestamp fs
      = (fs, Outcome.stopped, []) := by
  have h := pyStrip_eq_empty text hblank
  simp [generate_handler, h]

/-- C4 witness: whitespace-only input with every oracle in place is
rejected with no event and no file. -/
theorem C4_witness :
    generate_handler (fun _ _ _ => ([], none)) (fun _ _ => []) (fun _ _ => .error "")
        " \t " "en" "Female" "Edge-TTS (recommended)" 1 "20250101_000000" (fun _ => none)
      = ((fun _ => none), Outcome.stopped, []) :=
  C4_blank_text_rejected (fun _ _ _ => ([], none)) (fun _ _ => []) (fun _ _ => .error "")
    " \t " "en" "Female" "Edge-TTS (recommended)" 1 "20250101_000000" (fun _ => none)
    (by decide)

/-- C9: the output filename follows the pattern
prefix_language_gender_speedx_timestamp.mp3 — gender lowercased, the
decimal point of the speed replaced by an underscore, so the name encodes
language, gender and speed — and any two filenames built from distinct
15-character timestamps (the one-second %Y%m%d_%H%M%S format of the handler)
are distinct, whatever the remaining parameters. -/
theorem C9_filename_pattern_unique :
    (∀ (lang gender : String) (speed : ℚ) (ts : String),
        mk_filename lang gender speed ts =
          "tekross_voice_" ++ lang ++ "_" ++ pyLower gender ++ "_" ++
            (pyStrFloat speed).replace "." "_" ++ "x_" ++ ts ++ ".mp3") ∧
    (∀ (l1 g1 : String) (s1 : ℚ) (ts1 l2 g2 : String) (s2 : ℚ) (ts2 : String),
        ts1.length = 15 → ts2.length = 15 → ts1 ≠ ts2 →
        mk_filename l1 g1 s1 ts1 ≠ mk_filename l2 g2 s2 ts2) := by
  refine ⟨fun _ _ _ _ => rfl, ?_⟩
  intro l1 g1 s1 ts1 l2 g2 s2 ts2 h1 h2 hne heq
  apply hne
  have hd := congrArg String.data heq
  simp only [mk_filename, str_data_append] at hd
  have hl : ts1.data.length = ts2.data.length := by
    rw [show ts1.data.length = ts1.length from rfl,
      show ts2.data.length = ts2.length from rfl, h1, h2]
  exact str_data_inj (List.append_inj' (List.append_cancel_right hd) hl).2

/-- C9 witness: a concrete filename matches the pattern, and two
invocations one second apart get distinct names. -/
theorem C9_witness :
    mk_filename "en" "Female" 1 "20250101_120000" =
      "tekross_voice_" ++ "en" ++ "_" ++ pyLower "Female" ++ "_" ++
        (pyStrFloat 1).replace "." "_" ++ "x_" ++ "20250101_120000" ++ ".mp3" ∧
    mk_filename "en" "Female" 1 "20250101_120000"
      ≠ mk_filename "ja" "Male" (3/2) "20250101_120001" :=
  ⟨C9_filename_pattern_unique.1 "en" "Female" 1 "20250101_120000",
   C9_filename_pattern_unique.2 "en" "Female" 1 "20250101_120000"
     "ja" "Male" (3/2) "20250101_120001" rfl rfl (by decide)⟩

/-- What `synthesize_gtts` leaves at its ".mp3" output path and which
external calls it makes: both are independent of the path spelling (and of
gender, which it never receives). -/
theorem synthesize_gtts_out (gtts : String → String → Bytes)
    (speedupExport : Bytes → ℚ → Except String Bytes)
    (text lang : String) (speed : ℚ) (s : String) (fs : FS) :
    (synthesize_gtts gtts speedupExport text lang speed (s ++ ".mp3") fs).1 (s ++ ".mp3")
      = (if |speed - 1| < 1/1000000 then some (gtts text lang)
         else match speedupExport (gtts text lang) speed with
              | .ok a => some a
              | .error _ => some (gtts text lang)) ∧
    (synthesize_gtts gtts speedupExport text lang speed (s ++ ".mp3") fs).2.2
      = (if |speed - 1| < 1/1000000 then [Ev.gttsCall text lang]
         else [Ev.gttsCall text lang, Ev.stretchCall speed]) := by
  by_cases hc : |speed - 1| < 1/1000000
  · have key : synthesize_gtts gtts speedupExport text lang speed (s ++ ".mp3") fs
        = (fsRename (fsWrite fs (withSuffix (s ++ ".mp3") ".tmp.mp3") (gtts text lang))
             (withSuffix (s ++ ".mp3") ".tmp.mp3") (s ++ ".mp3"),
           .ok (s ++ ".mp3"), [Ev.gttsCall text lang]) := by
      simp only [synthesize_gtts]
      rw [if_pos hc]
    rw [key, if_pos hc, if_pos hc]
    constructor
    · simp [fsRename, fsWrite]
    · rfl
  · rcases hsps : speedupExport (gtts text lang) speed with e | a
    · have key : synthesize_gtts gtts speedupExport text lang speed (s ++ ".mp3") fs
          = (fsRename (fsWrite fs (withSuffix (s ++ ".mp3") ".tmp.mp3") (gtts text lang))
               (withSuffix (s ++ ".mp3") ".tmp.mp3") (s ++ ".mp3"),
             .error ("gTTSの速度変更に失敗しました（ffmpeg未導入の可能性）。通常速度の音声を出力しました。詳細: " ++ e),
             [Ev.gttsCall text lang, Ev.stretchCall speed]) := by
        simp only [synthesize_gtts]
        rw [if_neg hc, hsps]
      rw [key, if_neg hc, if_neg hc]
      constructor
      · simp [fsRename, fsWrite]
      · rfl
    · have key : synthesize_gtts gtts speedupExport text lang speed (s ++ ".mp3") fs
          = (fsUnlink (fsWrite (fsWrite fs (withSuffix (s ++ ".mp3") ".tmp.mp3")
                 (gtts text lang)) (s ++ ".mp3") a) (withSuffix (s ++ ".mp3") ".tmp.mp3"),
             .ok (s ++ ".mp3"), [Ev.gttsCall text lang, Ev.stretchCall speed]) := by
        simp only [synthesize_gtts]
        rw [if_neg hc, hsps]
      rw [key, if_neg hc, if_neg hc]
      constructor
      · simp [fsUnlink, fsWrite, Ne.symm (tmp_ne_out s)]
      · rfl

/-- C10: on the secondary-engine path the gender input influences neither
the backend interaction nor the audio: two handler runs identical except
for gender make the same external calls (in particular the same
(text, language) gTTS request) and leave identical audio bytes at their
respective output paths; gender only changes the file name. -/
theorem C10_gender_immaterial_secondary
    (stream : String → String → String → List Chunk × Option String)
    (gtts : String → String → Bytes)
    (speedupExport : Bytes → ℚ → Except String Bytes)
    (text lang engine g1 g2 : String) (speed : ℚ) (ts : String) (fs : FS)
    (heng : pyStartsWith engine "Edge-TTS" = false)
    (htext : pyStrip text ≠ "") :
    (generate_handler stream gtts speedupExport text lang g1 engine speed ts fs).2.2
      = (generate_handler stream gtts speedupExport text lang g2 engine speed ts fs).2.2 ∧
    (generate_handler stream gtts speedupExport text lang g1 engine speed ts fs).1
        (OUTPUT_DIR ++ "/" ++ mk_filename lang g1 speed ts)
      = (generate_handler stream gtts speedupExport text lang g2 engine speed ts fs).1
        (OUTPUT_DIR ++ "/" ++ mk_filename lang g2 speed ts) := by
  have h22 : ∀ g : String,
      (generate_handler stream gtts speedupExport text lang g engine speed ts fs).2.2
        = (synthesize_gtts gtts speedupExport text lang speed
            (OUTPUT_DIR ++ "/" ++ mk_filename lang g speed ts) fs).2.2 := by
    intro g
    simp [generate_handler, htext, heng]
  have hfs : ∀ g : String,
      (generate_handler stream gtts speedupExport text lang g engine speed ts fs).1
        = (synthesize_gtts gtts speedupExport text lang speed
            (OUTPUT_DIR ++ "/" ++ mk_filename lang g speed ts) fs).1 := by
    intro g
    simp [generate_handler, htext, heng]
  have hsh : ∀ g : String, OUTPUT_DIR ++ "/" ++ mk_filename lang g speed ts
      = ("outputs" ++ "/" ++ ("tekross_voice_" ++ lang ++ "_" ++ pyLower g ++ "_" ++
          (pyStrFloat speed).replace "." "_" ++ "x_" ++ ts)) ++ ".mp3" := by
    intro g
    simp [OUTPUT_DIR, mk_filename, String.append_assoc]
  constructor
  · rw [h22 g1, h22 g2, hsh g1, hsh g2,
      (synthesize_gtts_out gtts speedupExport text lang speed _ fs).2,
      (synthesize_gtts_out gtts speedupExport text lang speed _ fs).2]
  · rw [hfs g1, hfs g2, hsh g1, hsh g2,
      (synthesize_gtts_out gtts speedupExport text lang speed _ fs).1,
      (synthesize_gtts_out gtts speedupExport text lang speed _ fs).1]

/-- C10 witness: concrete runs differing only in gender produce the same
event log and the same bytes at their respective output paths. -/
theorem C10_witness :
    (generate_handler (fun _ _ _ => ([], none)) (fun _ _ => [5]) (fun a _ => .ok (a ++ a))
        "hello" "en" "Female" "gTTS (fallback)" (3/2) "20250101_120000" (fun _ => none)).2.2
      = (generate_handler (fun _ _ _ => ([], none)) (fun _ _ => [5]) (fun a _ => .ok (a ++ a))
        "hello" "en" "Male" "gTTS (fallback)" (3/2) "20250101_120000" (fun _ => none)).2.2 ∧
    (generate_handler (fun _ _ _ => ([], none)) (fun _ _ => [5]) (fun a _ => .ok (a ++ a))
        "hello" "en" "Female" "gTTS (fallback)" (3/2) "20250101_120000" (fun _ => none)).1
        (OUTPUT_DIR ++ "/" ++ mk_filename "en" "Female" (3/2) "20250101_120000")
      = (generate_handler (fun _ _ _ => ([], none)) (fun _ _ => [5]) (fun a _ => .ok (a ++ a))
        "hello" "en" "Male" "gTTS (fallback)" (3/2) "20250101_120000" (fun _ => none)).1
        (OUTPUT_DIR ++ "/" ++ mk_filename "en" "Male" (3/2) "20250101_120000") :=
  C10_gender_immaterial_secondary (fun _ _ _ => ([], none)) (fun _ _ => [5])
    (fun a _ => .ok (a ++ a)) "hello" "en" "gTTS (fallback)" "Female" "Male" (3/2)
    "20250101_120000" (fun _ => none) (by decide) (by decide)
